import Mathlib

/-
Verification of the clinic-info widget.

The development shallowly embeds two components of the repository:

ClinicInfo — the clinic map Embedder (source file src/unnamed/part_000,
the `embedClinicMap` factory): argument validation, color merging, the
three DOM presence flags, the parallel fetch with content-type checks,
the accordion DOM construction, and the stylesheet injection.  Network
and DOM effects are made explicit: fetch outcomes are inputs (a
`FetchEnv`), the host DOM is a record of three optional slots plus the
list of style tags appended to the document head, and a thrown-and-caught
JavaScript exception is an explicit `Option JsError` value.

Reporter — the iframe height-sync script (source file src/js/script2.js):
the debounced resize handler is modelled as a discrete-event machine over
time-stamped resize events.
-/

namespace ClinicInfo

/-- Model of a JavaScript JSON value, the possible results of
`response.json()`.  Numbers are restricted to integers, which covers
every value the claims exercise. -/
inductive Json where
  | null : Json
  | bool : Bool → Json
  | num : Int → Json
  | str : String → Json
  | arr : List Json → Json
  | obj : List (String × Json) → Json

/-- Model of a thrown JavaScript exception.  The code under verification
only distinguishes thrown-or-not, so a single constructor suffices for
TypeError, HTTP errors and JSON syntax errors alike. -/
inductive JsError where
  | thrown : JsError
deriving Repr, DecidableEq

/-- Property access `j.k`: throws TypeError on null, looks the key up on
an object, and yields undefined (`none`) on every other value.  The
`Option Json` result distinguishes undefined (`none`) from a present
value. -/
def Json.getProp : Json → String → Except JsError (Option Json)
  | .null, _ => .error .thrown
  | .obj fs, k => .ok ((fs.find? (fun p => p.1 == k)).map Prod.snd)
  | _, _ => .ok none

/-- Optional-chain access `j?.k`: like `Json.getProp` but null
short-circuits to undefined instead of throwing. -/
def Json.getPropOpt (j : Json) (k : String) : Option Json :=
  match j with
  | .obj fs => (fs.find? (fun p => p.1 == k)).map Prod.snd
  | _ => none

/-- Reading `j.length`: arrays and strings have a length, objects may
carry an explicit length field, everything else gives undefined. -/
def Json.lengthProp : Json → Option Json
  | .arr xs => some (.num xs.length)
  | .str s => some (.num s.length)
  | .obj fs => (fs.find? (fun p => p.1 == "length")).map Prod.snd
  | _ => none

mutual

/-- JavaScript string conversion of a JSON value, as used by template
literal interpolation: arrays join their elements with commas, objects
print the usual object tag. -/
def jsToString : Json → String
  | .null => "null"
  | .bool b => cond b "true" "false"
  | .num n => toString n
  | .str s => s
  | .arr xs => jsToStringList xs
  | .obj _ => "[object Object]"

/-- Comma-joined rendering of a list of JSON values, the array case of
`jsToString`. -/
def jsToStringList : List Json → String
  | [] => ""
  | [x] => jsToString x
  | x :: y :: t => jsToString x ++ "," ++ jsToStringList (y :: t)

end

/-- JavaScript truthiness of a possibly-undefined value. -/
def truthy : Option Json → Bool
  | none => false
  | some .null => false
  | some (.bool b) => b
  | some (.num n) => n != 0
  | some (.str s) => s != ""
  | some (.arr _) => true
  | some (.obj _) => true

/-- The idiom `v ?? ''` interpolated into a template literal: undefined
and null become the empty string, any other value is stringified. -/
def nullishToStr : Option Json → String
  | none => ""
  | some .null => ""
  | some j => jsToString j

/-- Digit-list accumulator for the integer fragment of JavaScript
ToNumber. -/
def parseDigitsGo : List Char → Nat → Option Nat
  | [], acc => some acc
  | c :: t, acc =>
    if c.isDigit then parseDigitsGo t (acc * 10 + (c.toNat - 48)) else none

/-- JavaScript ToNumber restricted to integer numerals: the empty string
is 0, a string of digits with an optional leading minus sign is its
value, anything else is NaN (`none`).  Fractional and exotic numeric
syntax is outside what the data can contain. -/
def jsToNumberInt (s : String) : Option Int :=
  match s.toList with
  | [] => some 0
  | '-' :: c :: t => (parseDigitsGo (c :: t) 0).map (fun n => -(n : Int))
  | l => parseDigitsGo l 0

/-- The comparison `v > 0` on a possibly-undefined JavaScript value, as
used by the guard `state.clinicDetails.length > 0`: undefined, null and
NaN compare false, booleans and numeric strings coerce. -/
def jsGtZero : Option Json → Bool
  | none => false
  | some .null => false
  | some (.bool b) => b
  | some (.num n) => decide (0 < n)
  | some (.str s) =>
    match jsToNumberInt s with
    | some n => decide (0 < n)
    | none => false
  | some (.arr xs) =>
    match jsToNumberInt (jsToStringList xs) with
    | some n => decide (0 < n)
    | none => false
  | some (.obj _) => false

/-- Containment of one character list in another, the recursion behind
`String.includes`. -/
def charsContain (hay pat : List Char) : Bool :=
  match hay with
  | [] => pat == []
  | _ :: t => pat.isPrefixOf hay || charsContain t pat

/-- Model of `String.prototype.includes`. -/
def strIncludes (s pat : String) : Bool :=
  charsContain s.toList pat.toList

/-- Whitespace predicate for `String.prototype.trim`, covering the
whitespace characters that can occur in a selector string. -/
def isWhitespaceChar (c : Char) : Bool :=
  c == ' ' || c == '\t' || c == '\n' || c == '\r'

/-- Model of `String.prototype.trim`. -/
def jsTrim (s : String) : String :=
  ⟨((s.toList.dropWhile isWhitespaceChar).reverse.dropWhile
      isWhitespaceChar).reverse⟩

/-- Model of `String.prototype.startsWith`. -/
def jsStartsWith (s pre : String) : Bool :=
  pre.toList.isPrefixOf s.toList

/-- JavaScript falsiness of an optional string argument, as tested by
`!parentSelector`: an absent value and the empty string are falsy. -/
def strFalsy : Option String → Bool
  | none => true
  | some s => s == ""

/-- Model of a fetch `Response`: `ok` and `status` from the HTTP layer,
the Content-Type header (`none` when the header is absent, so that
`headers.get` yields null), the text body, and the outcome of
`response.json()` (`error` when the body is not valid JSON, in which
case the call throws a SyntaxError). -/
structure JsResponse where
  ok : Bool
  status : Nat
  contentType : Option String
  bodyText : String
  bodyJson : Except JsError Json

/-- Outcome of one network fetch, supplied by the environment: either
the promise rejects (network error) or it resolves with a response. -/
inductive FetchOutcome where
  | networkError : FetchOutcome
  | response : JsResponse → FetchOutcome

/-- Source function `fetchData`: awaits the fetch, throws on a
non-success status, and catches every error into `undefined` (here
`none`) after logging it. -/
def fetchData : FetchOutcome → Option JsResponse
  | .networkError => none
  | .response r => if r.ok then some r else none

/-- Source function `isContentType`: reads the Content-Type header
(false when absent or empty) and tests it for the substring that the
requested type family names. -/
def isContentType (response : JsResponse) (type : String) : Bool :=
  match response.contentType with
  | none => false
  | some contentType =>
    if contentType == "" then false
    else if type == "json" then strIncludes contentType "application/json"
    else if type == "text" then strIncludes contentType "text/plain"
    else if type == "xml" then
      strIncludes contentType "image/svg+xml" ||
        strIncludes contentType "application/xml"
    else if type == "html" then strIncludes contentType "text/html"
    else false

/-- One rendered clinic entry of the accordion: the optional embedded
map iframe (present exactly when `clinic.mapUrl` is truthy, carrying
its stringified src) and the five table fields, each interpolated with
the `?? ''` fallback. -/
structure ClinicEntry where
  iframeSrc : Option String
  name : String
  hours : String
  closed : String
  address : String
  stations : String

/-- One rendered area group of the accordion: the header text (the area
name followed by the fixed Japanese area suffix) and the clinic entries
of its body. -/
structure AreaGroup where
  header : String
  clinics : List ClinicEntry

/-- Content of one marker slot of the host DOM: either whatever markup
it held before `init` ran, a parsed SVG document inserted from raw
markup, or the rendered details accordion. -/
inductive SlotContent where
  | original : String → SlotContent
  | svg : String → SlotContent
  | accordion : List AreaGroup → SlotContent

/-- One style tag appended to the document head by `embedStyleTag`.
The CSS text is a fixed template over exactly these three parameters,
rendered by `styleTagCss`; the record keeps the interpolated values. -/
structure StyleTag where
  parentSelector : String
  mainColor : String
  subColor : String
deriving Repr, DecidableEq

/-- The host document as the Embedder observes and mutates it: the
three marker slots under the parent selector (`none` when the marker
element is absent from the page) and the style tags appended to the
document head. -/
structure HostDom where
  titleSlot : Option SlotContent
  mapSlot : Option SlotContent
  detailsSlot : Option SlotContent
  headStyles : List StyleTag

/-- Source object `state`: the three fetched resources with their empty
defaults and the three presence flags probed from the host DOM at
construction time. -/
structure EmbedState where
  titleSvg : String
  mapSvg : String
  clinicDetails : Json
  isVisibleTitle : Bool
  isVisibleMap : Bool
  isVisibleDetailsAccordion : Bool

/-- Construction of the `state` object: empty resource values, presence
flags from `document.querySelector` probes of the three marker
attributes under the parent selector. -/
def initState (dom : HostDom) : EmbedState :=
  { titleSvg := ""
    mapSvg := ""
    clinicDetails := .obj []
    isVisibleTitle := dom.titleSlot.isSome
    isVisibleMap := dom.mapSlot.isSome
    isVisibleDetailsAccordion := dom.detailsSlot.isSome }

/-- Sequential traversal in the `Except` monad, the model of
`Array.prototype.forEach` over parsed JSON arrays: iteration stops at
the first thrown error. -/
def mapExcept (f : α → Except JsError β) : List α → Except JsError (List β)
  | [] => .ok []
  | a :: t => do
    let b ← f a
    let bs ← mapExcept f t
    .ok (b :: bs)

/-- Rendering of one clinic inside an area body: reads `clinic.mapUrl`
for the optional iframe (throwing a TypeError when `clinic` is null),
then interpolates the five table fields with the `?? ''` fallback. -/
def renderClinic (clinic : Json) : Except JsError ClinicEntry := do
  let mapUrl ← clinic.getProp "mapUrl"
  let name ← clinic.getProp "name"
  let hours ← clinic.getProp "hours"
  let closed ← clinic.getProp "closed"
  let address ← clinic.getProp "address"
  let stations ← clinic.getProp "stations"
  .ok
    { iframeSrc :=
        match mapUrl with
        | some u => if truthy (some u) then some (jsToString u) else none
        | none => none
      name := nullishToStr name
      hours := nullishToStr hours
      closed := nullishToStr closed
      address := nullishToStr address
      stations := nullishToStr stations }

/-- Rendering of one area group: interpolates `areaData.area ?? ''`
into the header (throwing when `areaData` is null), then iterates
`areaData?.clinics.forEach`, which throws a TypeError when the clinics
value is undefined or not an array. -/
def renderArea (areaData : Json) : Except JsError AreaGroup := do
  let area ← areaData.getProp "area"
  let header := nullishToStr area ++ "エリア"
  match areaData.getPropOpt "clinics" with
  | some (.arr clinics) => do
    let entries ← mapExcept renderClinic clinics
    .ok { header := header, clinics := entries }
  | _ => .error .thrown

/-- Source function `createClinicDetailsAccordion`: iterates
`state.clinicDetails.forEach` (throwing when the value is not an array)
and builds the two-level accordion list. -/
def createClinicDetailsAccordion (clinicDetails : Json) :
    Except JsError (List AreaGroup) :=
  match clinicDetails with
  | .arr areas => mapExcept renderArea areas
  | _ => .error .thrown

/-- Title branch of `createContents`: when the title flag and markup
are truthy, replaces the title slot content with the parsed SVG
(throwing a TypeError if the marker element is missing, since the
querySelector result would be null).  The inner markup test repeats
the outer one, as in the source. -/
def renderTitle (st : EmbedState) (dom : HostDom) :
    HostDom × Option JsError :=
  if st.isVisibleTitle && st.titleSvg != "" then
    if st.titleSvg != "" then
      match dom.titleSlot with
      | some _ => ({ dom with titleSlot := some (.svg st.titleSvg) }, none)
      | none => (dom, some .thrown)
    else (dom, none)
  else (dom, none)

/-- Map branch of `createContents`.  The outer guard of the source
tests `state.isVisibleMap` twice (instead of also testing the markup);
the markup test is the inner conditional only. -/
def renderMap (st : EmbedState) (dom : HostDom) :
    HostDom × Option JsError :=
  if st.isVisibleMap && st.isVisibleMap then
    if st.mapSvg != "" then
      match dom.mapSlot with
      | some _ => ({ dom with mapSlot := some (.svg st.mapSvg) }, none)
      | none => (dom, some .thrown)
    else (dom, none)
  else (dom, none)

/-- Details branch of `createContents`: guarded by the presence flag
and `state.clinicDetails.length > 0`, it first builds the whole
accordion DOM (which may throw) and only then clears and refills the
details slot. -/
def renderDetails (st : EmbedState) (dom : HostDom) :
    HostDom × Option JsError :=
  if st.isVisibleDetailsAccordion && jsGtZero st.clinicDetails.lengthProp then
    match createClinicDetailsAccordion st.clinicDetails with
    | .error e => (dom, some e)
    | .ok groups =>
      match dom.detailsSlot with
      | some _ =>
        ({ dom with detailsSlot := some (.accordion groups) }, none)
      | none => (dom, some .thrown)
  else (dom, none)

/-- Source function `createContents`: the three section renders run in
sequence; a throw in one aborts the later ones, leaving the DOM
mutations already made in place. -/
def createContents (st : EmbedState) (dom : HostDom) :
    HostDom × Option JsError :=
  match renderTitle st dom with
  | (d1, some e) => (d1, some e)
  | (d1, none) =>
    match renderMap st d1 with
    | (d2, some e) => (d2, some e)
    | (d2, none) => renderDetails st d2

/-- Escape helper: an opening brace of the CSS template text. -/
def obr : String := "\x7b"

/-- Escape helper: a closing brace of the CSS template text. -/
def cbr : String := "\x7d"

/-- The color-bearing rules of the stylesheet template of
`embedStyleTag`, with the parent selector and the two colors
interpolated verbatim at the same points as the source template.  The
purely static layout rules of the template carry no parameters and are
elided. -/
def styleTagCss (t : StyleTag) : String :=
  t.parentSelector ++ " .cl-svg-title " ++ obr ++
    " stroke-width: 0; " ++ cbr ++ "\n" ++
  t.parentSelector ++ " .cl-svg-title-em-text " ++ obr ++
    " fill: " ++ t.mainColor ++ " " ++ cbr ++ "\n" ++
  t.parentSelector ++ " .cl-svg-map-area-line line " ++ obr ++
    " stroke: " ++ t.mainColor ++ " " ++ cbr ++ "\n" ++
  t.parentSelector ++ " .cl-svg-map-main " ++ obr ++
    " fill: " ++ t.mainColor ++ " " ++ cbr ++ "\n" ++
  t.parentSelector ++ " .cl-svg-map-area-name " ++ obr ++
    " fill: " ++ t.mainColor ++ " " ++ cbr ++ "\n" ++
  t.parentSelector ++ " .cl-details-acd__list-item-header " ++ obr ++
    " background-color: " ++ t.subColor ++ " " ++ cbr ++ "\n"

/-- Source function `embedStyleTag`: creates a style element holding
the template instantiated with the parent selector and the two merged
colors, and appends it to the document head. -/
def embedStyleTag (parentSelector mainColor subColor : String)
    (dom : HostDom) : HostDom :=
  { dom with
    headStyles :=
      dom.headStyles ++ [⟨parentSelector, mainColor, subColor⟩] }

/-- The three fetch outcomes the network environment holds ready, one
per resource URL. -/
structure FetchEnv where
  title : FetchOutcome
  map : FetchOutcome
  details : FetchOutcome

/-- Resource path of the shared title SVG. -/
def titleUrl : String := "../images/title.svg"

/-- Resource path of the map SVG of one clinic type. -/
def mapSvgUrl (clinicType : String) : String :=
  "../images/" ++ clinicType ++ "/map.svg"

/-- Resource path of the clinic-details JSON of one clinic type. -/
def clinicDetailsUrl (clinicType : String) : String :=
  "../data/" ++ clinicType ++ "/clinic-details.json"

/-- The fetches that `fetchAllWithSetData` issues, one per raised
presence flag, in source order. -/
def requestedUrls (clinicType : String) (st : EmbedState) : List String :=
  (if st.isVisibleTitle then [titleUrl] else []) ++
  (if st.isVisibleMap then [mapSvgUrl clinicType] else []) ++
  (if st.isVisibleDetailsAccordion then [clinicDetailsUrl clinicType]
    else [])

/-- Commit step of the title response: the text body is stored exactly
when the response is present and of the SVG or XML content-type
family. -/
def commitTitle (resTitle : Option JsResponse) (st : EmbedState) :
    EmbedState :=
  match resTitle with
  | some r =>
    if isContentType r "xml" then { st with titleSvg := r.bodyText }
    else st
  | none => st

/-- Commit step of the map response, like the title commit. -/
def commitMap (resMap : Option JsResponse) (st : EmbedState) :
    EmbedState :=
  match resMap with
  | some r =>
    if isContentType r "xml" then { st with mapSvg := r.bodyText }
    else st
  | none => st

/-- Commit step of the details response: on the JSON content type the
body is parsed by `response.json()`, which throws a SyntaxError on a
malformed body; the parsed value is stored on success. -/
def commitDetails (resDetails : Option JsResponse) (st : EmbedState) :
    EmbedState × Option JsError :=
  match resDetails with
  | some r =>
    if isContentType r "json" then
      match r.bodyJson with
      | .ok j => ({ st with clinicDetails := j }, none)
      | .error e => (st, some e)
    else (st, none)
  | none => (st, none)

/-- Source function `fetchAllWithSetData`: issues one fetch per raised
presence flag (recorded as the list of requested URLs, in source
order), joins the three outcomes, and commits each response that
passes its content-type check into the state.  Reading the details
JSON body may throw a SyntaxError, returned as the error component
with the commits made so far kept. -/
def fetchAllWithSetData (clinicType : String) (env : FetchEnv)
    (st : EmbedState) : List String × EmbedState × Option JsError :=
  let urls := requestedUrls clinicType st
  let resTitle := if st.isVisibleTitle then fetchData env.title else none
  let resMap := if st.isVisibleMap then fetchData env.map else none
  let resDetails :=
    if st.isVisibleDetailsAccordion then fetchData env.details else none
  let st2 := commitMap resMap (commitTitle resTitle st)
  match commitDetails resDetails st2 with
  | (st3, err) => (urls, st3, err)

/-- Observable outcome of one `init` call: the URLs fetched, the state
after the call, the host document after the call, and whether the
top-level catch block of `init` caught (and logged) an error. -/
structure InitOutcome where
  urls : List String
  state : EmbedState
  dom : HostDom
  caught : Bool

/-- Source function `init`: fetches and commits all resources, renders
the DOM, and appends the stylesheet, with the whole body in one
try-catch — a throw anywhere is caught and logged, and the remaining
steps of the call are skipped.  The function is total: the returned
promise never rejects. -/
def init (parentSelector clinicType mainColor subColor : String)
    (env : FetchEnv) (st : EmbedState) (dom : HostDom) : InitOutcome :=
  match fetchAllWithSetData clinicType env st with
  | (urls, st1, some _) =>
    { urls := urls, state := st1, dom := dom, caught := true }
  | (urls, st1, none) =>
    match createContents st1 dom with
    | (dom1, some _) =>
      { urls := urls, state := st1, dom := dom1, caught := true }
    | (dom1, none) =>
      { urls := urls, state := st1
        dom := embedStyleTag parentSelector mainColor subColor dom1
        caught := false }

/-- Optional color overrides of the embed configuration. -/
structure Colors where
  mainColor : Option String
  subColor : Option String

/-- Argument object of the `embedClinicMap` factory.  The two required
fields are optional strings so that absent and empty values can be
distinguished from valid ones. -/
structure EmbedParams where
  parentSelector : Option String
  clinicType : Option String
  colors : Colors

/-- Construction-time failure of the factory: the message of the raised
Error. -/
inductive EmbedError where
  | invalidArgument : String → EmbedError

/-- A constructed Embedder instance: the validated arguments, the two
merged colors, and the state probed from the host DOM. -/
structure EmbedInstance where
  parentSelector : String
  clinicType : String
  mainColor : String
  subColor : String
  state : EmbedState

/-- Documented default of the main color. -/
def defaultMainColor : String := "#000"

/-- Documented default of the sub color. -/
def defaultSubColor : String := "#fff"

/-- Source function `embedClinicMap`: throws when either required
argument is falsy or when the trimmed parent selector does not start
with a hash, then merges the color overrides over the defaults by
object spread (no validation of the color values) and probes the three
presence flags. -/
def embedClinicMap (params : EmbedParams) (dom : HostDom) :
    Except EmbedError EmbedInstance :=
  if strFalsy params.parentSelector || strFalsy params.clinicType then
    .error (.invalidArgument
      "\"parentSelector\" and \"clinicType\" is required.")
  else
    let ps := params.parentSelector.getD ""
    let isIdSelector := jsStartsWith (jsTrim ps) "#"
    if !isIdSelector then
      .error (.invalidArgument "Please specify an ID selector.")
    else
      .ok
        { parentSelector := ps
          clinicType := params.clinicType.getD ""
          mainColor := params.colors.mainColor.getD defaultMainColor
          subColor := params.colors.subColor.getD defaultSubColor
          state := initState dom }

/-- Boolean error test on an `Except` value. -/
def exceptIsError : Except ε α → Bool
  | .error _ => true
  | .ok _ => false

/-- Running `init` on a constructed instance with its own validated
arguments and probed state. -/
def EmbedInstance.runInit (inst : EmbedInstance) (env : FetchEnv)
    (dom : HostDom) : InitOutcome :=
  init inst.parentSelector inst.clinicType inst.mainColor inst.subColor
    env inst.state dom

/-- Per-section rendering a slot should receive from its own fetch
outcome alone: an absent marker stays absent, and a present marker is
replaced by the fetched SVG exactly when the fetch succeeded, passed
the content-type check, and returned nonempty markup — otherwise it
keeps its prior content.  Stated from the source pipeline
(`fetchData`, `isContentType`, the commit and render steps) to express
independence of the sections. -/
def expectedSvgSlot (outcome : FetchOutcome) (slot : Option SlotContent) :
    Option SlotContent :=
  match slot with
  | none => none
  | some orig =>
    match fetchData outcome with
    | some r =>
      if isContentType r "xml" && r.bodyText != "" then
        some (.svg r.bodyText)
      else some orig
    | none => some orig

/-- The title or map markup that the commit phase ends up holding for
one joined fetch result: the text body when the response is present and
of the XML family, the empty default otherwise. -/
def svgCommitText : Option JsResponse → String
  | some r => if isContentType r "xml" then r.bodyText else ""
  | none => ""

/-- Host document with none of the three marker elements. -/
def domEmpty : HostDom := ⟨none, none, none, []⟩

/-- Host document with all three marker elements, each holding some
prior content. -/
def domAll : HostDom :=
  ⟨some (.original "t0"), some (.original "m0"), some (.original "d0"),
    []⟩

/-- Host document with only the details marker element. -/
def domDetailsOnly : HostDom := ⟨none, none, some (.original "d0"), []⟩

/-- A details fetch that resolved with HTTP 404. -/
def detailsResp404 : JsResponse :=
  ⟨false, 404, some "text/html", "Not Found", .error .thrown⟩

/-- A successful details fetch of the wrong content type. -/
def detailsRespHtml : JsResponse :=
  ⟨true, 200, some "text/html", "<p>oops</p>", .error .thrown⟩

/-- The details data of the East-area test: one area, one clinic, no
mapUrl, no address and no stations. -/
def eastJson : Json :=
  .arr [.obj [("area", .str "East"),
    ("clinics", .arr [.obj [("name", .str "Clinic A"),
      ("hours", .str "9-5"), ("closed", .str "Sun")]])]]

/-- A successful details fetch carrying the East-area data. -/
def detailsRespEast : JsResponse :=
  ⟨true, 200, some "application/json", "[...]", .ok eastJson⟩

/-- Details data whose single area entry has no clinics field, so that
the accordion builder throws a TypeError on `undefined.forEach`. -/
def areaNoClinicsJson : Json := .arr [.obj [("area", .str "East")]]

/-- State holding the clinics-free details data with only the details
flag raised, as left by a fetch of `areaNoClinicsJson`. -/
def stNoClinics : EmbedState :=
  ⟨"", "", areaNoClinicsJson, false, false, true⟩

/-- A successful details fetch carrying the clinics-free area data. -/
def detailsRespNoClinics : JsResponse :=
  ⟨true, 200, some "application/json", "[...]", .ok areaNoClinicsJson⟩

/-- A successful response carrying no Content-Type header at all. -/
def respNoContentType : JsResponse :=
  ⟨true, 200, none, "<svg/>", .ok eastJson⟩

/-- Environment where every fetch fails at the network level. -/
def envNone : FetchEnv := ⟨.networkError, .networkError, .networkError⟩

/-- Environment serving the East-area details data. -/
def envEast : FetchEnv :=
  ⟨.networkError, .networkError, .response detailsRespEast⟩

/-- Environment serving the clinics-free details data. -/
def envNoClinics : FetchEnv :=
  ⟨.networkError, .networkError, .response detailsRespNoClinics⟩

/-- Factory arguments with an invalid (non-hexadecimal) main color. -/
def paramsZzz : EmbedParams :=
  ⟨some "#p", some "juno", ⟨some "zzz", none⟩⟩

end ClinicInfo

namespace Reporter

/-- Snapshot of the browser window at some instant: the viewport width
read by `window.innerWidth` and the measured content height that
`sendHeight` would post. -/
structure Viewport where
  width : Nat
  height : Nat
deriving Repr, DecidableEq

/-- One resize event of the trace: its time in milliseconds and the
window snapshot it establishes. -/
structure ResizeEvent where
  time : Nat
  viewport : Viewport
deriving Repr, DecidableEq

/-- State of the height-sync script: the last width for which a report
was considered (`lastWidth`), the current window snapshot, the pending
debounce timer (as its absolute fire time, a single slot because each
new resize clears the previous timeout), and the heights posted so far
by `sendHeight`, oldest first. -/
structure ReporterState where
  lastWidth : Nat
  window : Viewport
  timer : Option Nat
  reports : List Nat
deriving Repr, DecidableEq

/-- The debounced resize callback of the source: when the timer fires
it compares the current width against `lastWidth` and, only on a
change, records the width and posts the current measured height. -/
def fireTimer (s : ReporterState) : ReporterState :=
  if s.window.width != s.lastWidth then
    { s with
      lastWidth := s.window.width
      reports := s.reports ++ [s.window.height]
      timer := none }
  else { s with timer := none }

/-- The debounce delay of the source, in milliseconds. -/
def debounceDelay : Nat := 200

/-- Handling of one resize event: a pending timer due at or before the
event fires first, then the window takes the new snapshot and the
debounce clears and re-arms the timer for the delay after this
event. -/
def handleResize (s : ReporterState) (e : ResizeEvent) : ReporterState :=
  let s1 :=
    match s.timer with
    | some ft => if ft ≤ e.time then fireTimer s else s
    | none => s
  { s1 with window := e.viewport, timer := some (e.time + debounceDelay) }

/-- Letting the final pending timer, if any, fire after the trace
ends. -/
def runToQuiescence (s : ReporterState) : ReporterState :=
  match s.timer with
  | some _ => fireTimer s
  | none => s

/-- A full run of the resize machinery of the script: `lastWidth`
starts at the initial inner width, the load-time `sendHeight` posts the
initial height, then the time-ordered resize events are handled and the
last debounce timer is allowed to expire. -/
def runReporter (w0 : Viewport) (events : List ResizeEvent) :
    ReporterState :=
  let s0 : ReporterState :=
    { lastWidth := w0.width, window := w0, timer := none
      reports := [w0.height] }
  runToQuiescence (events.foldl handleResize s0)

end Reporter

namespace ClinicInfo

lemma renderTitle_fields (st : EmbedState) (dom : HostDom) :
    (renderTitle st dom).1.mapSlot = dom.mapSlot ∧
    (renderTitle st dom).1.detailsSlot = dom.detailsSlot ∧
    (renderTitle st dom).1.headStyles = dom.headStyles := by
  unfold renderTitle
  split_ifs <;> try simp
  cases dom.titleSlot <;> simp

lemma renderMap_fields (st : EmbedState) (dom : HostDom) :
    (renderMap st dom).1.titleSlot = dom.titleSlot ∧
    (renderMap st dom).1.detailsSlot = dom.detailsSlot ∧
    (renderMap st dom).1.headStyles = dom.headStyles := by
  unfold renderMap
  split_ifs <;> try simp
  cases dom.mapSlot <;> simp

lemma renderDetails_fields (st : EmbedState) (dom : HostDom) :
    (renderDetails st dom).1.titleSlot = dom.titleSlot ∧
    (renderDetails st dom).1.mapSlot = dom.mapSlot ∧
    (renderDetails st dom).1.headStyles = dom.headStyles := by
  unfold renderDetails
  split_ifs <;> try simp
  split <;> try simp
  cases dom.detailsSlot <;> simp

lemma createContents_headStyles (st : EmbedState) (dom : HostDom) :
    (createContents st dom).1.headStyles = dom.headStyles := by
  rcases h1 : renderTitle st dom with ⟨d1, e1⟩
  have hT : d1.headStyles = dom.headStyles := by
    have h := (renderTitle_fields st dom).2.2
    rw [h1] at h; exact h
  unfold createContents
  simp only [h1]
  cases e1 with
  | some e => exact hT
  | none =>
    rcases h2 : renderMap st d1 with ⟨d2, e2⟩
    have hM : d2.headStyles = d1.headStyles := by
      have h := (renderMap_fields st d1).2.2
      rw [h2] at h; exact h
    simp only [h2]
    cases e2 with
    | some e => exact hM.trans hT
    | none =>
      have hD : (renderDetails st d2).1.headStyles = d2.headStyles :=
        (renderDetails_fields st d2).2.2
      exact hD.trans (hM.trans hT)

lemma renderTitle_char (st : EmbedState) (dom : HostDom)
    (h : st.isVisibleTitle = dom.titleSlot.isSome) :
    renderTitle st dom =
      ({ dom with
          titleSlot := if st.isVisibleTitle && st.titleSvg != "" then
            some (.svg st.titleSvg) else dom.titleSlot }, none) := by
  unfold renderTitle
  by_cases hv : st.isVisibleTitle = true
  · by_cases hs1 : st.titleSvg = ""
    · simp [hv, hs1]
    · have hsome : dom.titleSlot.isSome = true := by rw [← h]; exact hv
      rcases Option.isSome_iff_exists.mp hsome with ⟨c, hc⟩
      simp [hv, hs1, hc]
  · have hv2 : st.isVisibleTitle = false := by simpa using hv
    simp [hv2]

lemma renderMap_char (st : EmbedState) (dom : HostDom)
    (h : st.isVisibleMap = dom.mapSlot.isSome) :
    renderMap st dom =
      ({ dom with
          mapSlot := if st.isVisibleMap && st.mapSvg != "" then
            some (.svg st.mapSvg) else dom.mapSlot }, none) := by
  unfold renderMap
  by_cases hv : st.isVisibleMap = true
  · by_cases hs1 : st.mapSvg = ""
    · simp [hv, hs1]
    · have hsome : dom.mapSlot.isSome = true := by rw [← h]; exact hv
      rcases Option.isSome_iff_exists.mp hsome with ⟨c, hc⟩
      simp [hv, hs1, hc]
  · have hv2 : st.isVisibleMap = false := by simpa using hv
    simp [hv2]

lemma renderDetails_skip (st : EmbedState) (dom : HostDom)
    (h : jsGtZero st.clinicDetails.lengthProp = false) :
    renderDetails st dom = (dom, none) := by
  unfold renderDetails
  simp [h]

lemma createContents_char (st : EmbedState) (dom : HostDom)
    (hT : st.isVisibleTitle = dom.titleSlot.isSome)
    (hM : st.isVisibleMap = dom.mapSlot.isSome)
    (hD : jsGtZero st.clinicDetails.lengthProp = false) :
    createContents st dom =
      ({ dom with
          titleSlot := if st.isVisibleTitle && st.titleSvg != "" then
            some (.svg st.titleSvg) else dom.titleSlot
          mapSlot := if st.isVisibleMap && st.mapSvg != "" then
            some (.svg st.mapSvg) else dom.mapSlot }, none) := by
  unfold createContents
  simp only [renderTitle_char st dom hT]
  simp only [renderMap_char st
    ({ dom with
        titleSlot := if st.isVisibleTitle && st.titleSvg != "" then
          some (.svg st.titleSvg) else dom.titleSlot }) hM]
  rw [renderDetails_skip st _ hD]


lemma commitTitle_rest (rt : Option JsResponse) (st : EmbedState) :
    (commitTitle rt st).mapSvg = st.mapSvg ∧
    (commitTitle rt st).clinicDetails = st.clinicDetails ∧
    (commitTitle rt st).isVisibleTitle = st.isVisibleTitle ∧
    (commitTitle rt st).isVisibleMap = st.isVisibleMap ∧
    (commitTitle rt st).isVisibleDetailsAccordion =
      st.isVisibleDetailsAccordion := by
  unfold commitTitle
  rcases rt with _ | r
  · exact ⟨rfl, rfl, rfl, rfl, rfl⟩
  · by_cases hct : isContentType r "xml" = true <;> simp [hct]

lemma commitMap_rest (rm : Option JsResponse) (st : EmbedState) :
    (commitMap rm st).titleSvg = st.titleSvg ∧
    (commitMap rm st).clinicDetails = st.clinicDetails ∧
    (commitMap rm st).isVisibleTitle = st.isVisibleTitle ∧
    (commitMap rm st).isVisibleMap = st.isVisibleMap ∧
    (commitMap rm st).isVisibleDetailsAccordion =
      st.isVisibleDetailsAccordion := by
  unfold commitMap
  rcases rm with _ | r
  · exact ⟨rfl, rfl, rfl, rfl, rfl⟩
  · by_cases hct : isContentType r "xml" = true <;> simp [hct]

lemma commitTitle_titleSvg_of_empty (rt : Option JsResponse)
    (st : EmbedState) (h : st.titleSvg = "") :
    (commitTitle rt st).titleSvg = svgCommitText rt := by
  unfold commitTitle svgCommitText
  rcases rt with _ | r
  · exact h
  · by_cases hct : isContentType r "xml" = true <;> simp [hct, h]

lemma commitMap_mapSvg_of_empty (rm : Option JsResponse)
    (st : EmbedState) (h : st.mapSvg = "") :
    (commitMap rm st).mapSvg = svgCommitText rm := by
  unfold commitMap svgCommitText
  rcases rm with _ | r
  · exact h
  · by_cases hct : isContentType r "xml" = true <;> simp [hct, h]

lemma commitDetails_skip (rd : Option JsResponse) (st : EmbedState)
    (h : rd = none ∨ ∃ r, rd = some r ∧ isContentType r "json" = false) :
    commitDetails rd st = (st, none) := by
  rcases h with h | ⟨r, hr, hct⟩
  · rw [h]; rfl
  · rw [hr]; unfold commitDetails; simp [hct]

lemma slot_update_expected (outcome : FetchOutcome)
    (slot : Option SlotContent) :
    (if slot.isSome &&
        svgCommitText (if slot.isSome then fetchData outcome else none)
          != "" then
      some (SlotContent.svg
        (svgCommitText (if slot.isSome then fetchData outcome else none)))
    else slot) = expectedSvgSlot outcome slot := by
  cases slot with
  | none => simp [expectedSvgSlot, svgCommitText]
  | some orig =>
    unfold expectedSvgSlot
    rcases hf : fetchData outcome with _ | r
    · simp [hf, svgCommitText]
    · by_cases hct : isContentType r "xml" = true
      · by_cases hb : r.bodyText = "" <;> simp [hf, hct, hb, svgCommitText]
      · have hct2 : isContentType r "xml" = false := by simpa using hct
        simp [hf, hct2, svgCommitText]

theorem init_char_general (ps ct mc sc : String) (env : FetchEnv)
    (dom : HostDom)
    (hD : (if dom.detailsSlot.isSome then fetchData env.details
        else none) = none ∨
      ∃ r, (if dom.detailsSlot.isSome then fetchData env.details
          else none) = some r ∧
        isContentType r "json" = false) :
    init ps ct mc sc env (initState dom) dom =
      { urls := requestedUrls ct (initState dom)
        state := commitMap
          (if dom.mapSlot.isSome then fetchData env.map else none)
          (commitTitle
            (if dom.titleSlot.isSome then fetchData env.title else none)
            (initState dom))
        dom := embedStyleTag ps mc sc
          { dom with
            titleSlot := expectedSvgSlot env.title dom.titleSlot
            mapSlot := expectedSvgSlot env.map dom.mapSlot }
        caught := false } := by
  set rt := if dom.titleSlot.isSome then fetchData env.title else none
    with hrtdef
  set rm := if dom.mapSlot.isSome then fetchData env.map else none
    with hrmdef
  set st2 := commitMap rm (commitTitle rt (initState dom)) with hst2def
  have hskip : commitDetails
      (if dom.detailsSlot.isSome then fetchData env.details else none)
      st2 = (st2, none) := by
    apply commitDetails_skip
    exact hD
  have hfetch : fetchAllWithSetData ct env (initState dom) =
      (requestedUrls ct (initState dom), st2, none) := by
    have h0 : fetchAllWithSetData ct env (initState dom) =
        (requestedUrls ct (initState dom),
          commitDetails
            (if dom.detailsSlot.isSome then fetchData env.details
              else none) st2) := rfl
    rw [h0, hskip]
  unfold init
  simp only [hfetch]
  have hT2 : st2.isVisibleTitle = dom.titleSlot.isSome := by
    rw [hst2def, (commitMap_rest rm _).2.2.1,
      (commitTitle_rest rt _).2.2.1]
    rfl
  have hM2 : st2.isVisibleMap = dom.mapSlot.isSome := by
    rw [hst2def, (commitMap_rest rm _).2.2.2.1,
      (commitTitle_rest rt _).2.2.2.1]
    rfl
  have hD2 : jsGtZero st2.clinicDetails.lengthProp = false := by
    rw [hst2def, (commitMap_rest rm _).2.1, (commitTitle_rest rt _).2.1]
    rfl
  simp only [createContents_char st2 dom hT2 hM2 hD2]
  have hsvgT : st2.titleSvg = svgCommitText rt := by
    rw [hst2def, (commitMap_rest rm _).1]
    exact commitTitle_titleSvg_of_empty rt _ rfl
  have hsvgM : st2.mapSvg = svgCommitText rm := by
    rw [hst2def]
    exact commitMap_mapSvg_of_empty rm _ (commitTitle_rest rt _).1
  rw [hT2, hM2, hsvgT, hsvgM, hrtdef, hrmdef,
    slot_update_expected env.title dom.titleSlot,
    slot_update_expected env.map dom.mapSlot]

theorem init_char (ps ct mc sc : String) (env : FetchEnv) (dom : HostDom)
    (hD : fetchData env.details = none ∨
      ∃ r, fetchData env.details = some r ∧
        isContentType r "json" = false) :
    init ps ct mc sc env (initState dom) dom =
      { urls := requestedUrls ct (initState dom)
        state := commitMap
          (if dom.mapSlot.isSome then fetchData env.map else none)
          (commitTitle
            (if dom.titleSlot.isSome then fetchData env.title else none)
            (initState dom))
        dom := embedStyleTag ps mc sc
          { dom with
            titleSlot := expectedSvgSlot env.title dom.titleSlot
            mapSlot := expectedSvgSlot env.map dom.mapSlot }
        caught := false } := by
  apply init_char_general
  by_cases hv : dom.detailsSlot.isSome = true
  · rcases hD with h | ⟨r, hr, hct⟩
    · left
      rw [if_pos hv]
      exact h
    · right
      refine ⟨r, ?_, hct⟩
      rw [if_pos hv]
      exact hr
  · left
    rw [if_neg hv]

lemma init_urls (ps ct mc sc : String) (env : FetchEnv) (st : EmbedState)
    (dom : HostDom) :
    (init ps ct mc sc env st dom).urls = requestedUrls ct st := by
  rcases h : fetchAllWithSetData ct env st with ⟨urls, st1, err⟩
  have hu : urls = requestedUrls ct st := by
    have h0 : (fetchAllWithSetData ct env st).1 = requestedUrls ct st := rfl
    rw [h] at h0
    exact h0
  unfold init
  simp only [h]
  cases err with
  | some e => exact hu
  | none =>
    rcases hc : createContents st1 dom with ⟨d1, e1⟩
    simp only [hc]
    cases e1 with
    | some e => exact hu
    | none => exact hu

lemma init_headStyles (ps ct mc sc : String) (env : FetchEnv)
    (st : EmbedState) (dom : HostDom) :
    (init ps ct mc sc env st dom).dom.headStyles =
      dom.headStyles ++
        (if (init ps ct mc sc env st dom).caught then []
          else [⟨ps, mc, sc⟩]) := by
  rcases h : fetchAllWithSetData ct env st with ⟨urls, st1, err⟩
  unfold init
  simp only [h]
  cases err with
  | some e => simp
  | none =>
    rcases hc : createContents st1 dom with ⟨d1, e1⟩
    have hcs : d1.headStyles = dom.headStyles := by
      have hh := createContents_headStyles st1 dom
      rw [hc] at hh
      exact hh
    simp only [hc]
    cases e1 with
    | some e => simp [hcs]
    | none => simp [embedStyleTag, hcs]

lemma svgCommitText_flagged_none (b : Bool) (r : JsResponse)
    (hct : isContentType r "xml" = false) :
    svgCommitText (if b then fetchData (.response r) else none) = "" := by
  cases b with
  | false => rfl
  | true =>
    unfold fetchData
    by_cases hok : r.ok = true
    · simp [hok, svgCommitText, hct]
    · have hokf : r.ok = false := by simpa using hok
      simp [hokf, svgCommitText]

lemma expectedSvgSlot_of_badct (o : FetchOutcome)
    (slot : Option SlotContent)
    (h2 : ∀ rr, fetchData o = some rr → isContentType rr "xml" = false) :
    expectedSvgSlot o slot = slot := by
  unfold expectedSvgSlot
  cases slot with
  | none => rfl
  | some orig =>
    rcases hf : fetchData o with _ | rr
    · simp [hf]
    · simp [hf, h2 rr hf]

set_option maxRecDepth 40000 in
/-- Claim C2 counterexample: with mainColor zzz — not a 3- or 6-digit
hexadecimal string — construction succeeds, and the stylesheet appended
by `init` carries the value zzz verbatim: its CSS text contains
fill: zzz and does not contain the documented default fill: #000.  No
fallback to the default color happens, contradicting the claim. -/
theorem c2_counterexample :
    exceptIsError (embedClinicMap paramsZzz domEmpty) = false ∧
    ((embedClinicMap paramsZzz domEmpty).toOption.map
      (fun inst => (inst.runInit envNone domEmpty).dom.headStyles)) =
      some [⟨"#p", "zzz", "#fff"⟩] ∧
    strIncludes (styleTagCss ⟨"#p", "zzz", "#fff"⟩) "fill: zzz" = true ∧
    strIncludes (styleTagCss ⟨"#p", "zzz", "#fff"⟩) "fill: #000" = false :=
  ⟨rfl, rfl, by decide, by decide⟩

/-- Claim C2 amended: construction never throws on account of the color
values; the colors are merged over the defaults by presence alone (an
absent field gets the default, main #000 and sub #fff) with no
hexadecimal validation, and a call to `init` that completes without a
caught error appends one stylesheet carrying the configured values
verbatim. -/
theorem c2_amended (params : EmbedParams) (dom : HostDom)
    (inst : EmbedInstance) (env : FetchEnv)
    (h : embedClinicMap params dom = .ok inst) :
    inst.mainColor = params.colors.mainColor.getD defaultMainColor ∧
    inst.subColor = params.colors.subColor.getD defaultSubColor ∧
    ((inst.runInit env dom).caught = false →
      (inst.runInit env dom).dom.headStyles =
        dom.headStyles ++
          [⟨inst.parentSelector, inst.mainColor, inst.subColor⟩]) := by
  unfold embedClinicMap at h
  by_cases h1 : (strFalsy params.parentSelector ||
      strFalsy params.clinicType) = true
  · rw [if_pos h1] at h
    exact absurd h (by simp)
  · rw [if_neg h1] at h
    by_cases h2 : (!jsStartsWith (jsTrim (params.parentSelector.getD ""))
        "#") = true
    · rw [if_pos h2] at h
      exact absurd h (by simp)
    · rw [if_neg h2] at h
      simp only [Except.ok.injEq] at h
      subst h
      refine ⟨rfl, rfl, ?_⟩
      intro hcaught
      unfold EmbedInstance.runInit at hcaught ⊢
      rw [init_headStyles, hcaught]
      simp

/-- Claim C2 witness: the amended theorem applied to the zzz
configuration, whose constructed instance carries mainColor zzz. -/
theorem c2_amended_witness :
    embedClinicMap paramsZzz domEmpty =
      .ok ⟨"#p", "juno", "zzz", "#fff", initState domEmpty⟩ ∧
    (EmbedInstance.mainColor
        ⟨"#p", "juno", "zzz", "#fff", initState domEmpty⟩ =
      paramsZzz.colors.mainColor.getD defaultMainColor ∧
    EmbedInstance.subColor
        ⟨"#p", "juno", "zzz", "#fff", initState domEmpty⟩ =
      paramsZzz.colors.subColor.getD defaultSubColor ∧
    ((EmbedInstance.runInit
        ⟨"#p", "juno", "zzz", "#fff", initState domEmpty⟩ envNone
        domEmpty).caught = false →
      (EmbedInstance.runInit
        ⟨"#p", "juno", "zzz", "#fff", initState domEmpty⟩ envNone
        domEmpty).dom.headStyles =
        domEmpty.headStyles ++ [⟨"#p", "zzz", "#fff"⟩])) :=
  ⟨rfl, c2_amended paramsZzz domEmpty
    ⟨"#p", "juno", "zzz", "#fff", initState domEmpty⟩ envNone rfl⟩

/-- Claim C3 counterexample: a call to `init` whose details data makes
the accordion builder throw (an area entry with no clinics field) is
caught by the top-level catch and appends no style element at all,
contradicting the claim that every call appends exactly one stylesheet
regardless of fetch and render outcomes. -/
theorem c3_counterexample :
    (init "#p" "juno" "#000" "#fff" envNoClinics
      (initState domDetailsOnly) domDetailsOnly).caught = true ∧
    (init "#p" "juno" "#000" "#fff" envNoClinics
      (initState domDetailsOnly) domDetailsOnly).dom.headStyles = [] :=
  ⟨rfl, rfl⟩

/-- Claim C3 amended: a call to `init` appends exactly one style
element when no internal error is caught during the call, and none when
one is; consequently two calls on one instance that both complete
without a caught error append exactly two stylesheets (the documented
non-deduplicated accumulation). -/
theorem c3_amended (ps ct mc sc : String) (env env2 : FetchEnv)
    (st1 st2 : EmbedState) (dom : HostDom) :
    (init ps ct mc sc env st1 dom).dom.headStyles =
      dom.headStyles ++
        (if (init ps ct mc sc env st1 dom).caught then []
          else [⟨ps, mc, sc⟩]) ∧
    ((init ps ct mc sc env st1 dom).caught = false →
      (init ps ct mc sc env2 st2
        (init ps ct mc sc env st1 dom).dom).caught = false →
      (init ps ct mc sc env2 st2
        (init ps ct mc sc env st1 dom).dom).dom.headStyles =
        dom.headStyles ++ [⟨ps, mc, sc⟩, ⟨ps, mc, sc⟩]) := by
  refine ⟨init_headStyles ps ct mc sc env st1 dom, ?_⟩
  intro h1 h2
  rw [init_headStyles ps ct mc sc env2 st2
      (init ps ct mc sc env st1 dom).dom, h2,
    init_headStyles ps ct mc sc env st1 dom, h1]
  simp

/-- Claim C3 witness: two concrete consecutive calls, both completing
without a caught error, append exactly two stylesheets. -/
theorem c3_amended_witness :
    (init "#p" "juno" "#000" "#fff" envNone (initState domEmpty)
      domEmpty).caught = false ∧
    (init "#p" "juno" "#000" "#fff" envNone (initState domEmpty)
      (init "#p" "juno" "#000" "#fff" envNone (initState domEmpty)
        domEmpty).dom).caught = false ∧
    (init "#p" "juno" "#000" "#fff" envNone (initState domEmpty)
      (init "#p" "juno" "#000" "#fff" envNone (initState domEmpty)
        domEmpty).dom).dom.headStyles =
      domEmpty.headStyles ++
        [⟨"#p", "#000", "#fff"⟩, ⟨"#p", "#000", "#fff"⟩] :=
  ⟨rfl, rfl,
    (c3_amended "#p" "juno" "#000" "#fff" envNone envNone
      (initState domEmpty) (initState domEmpty) domEmpty).2 rfl rfl⟩

/-- Claim C4 counterexample: the parent selector written as a space
followed by a hash does not start with the hash character, yet
construction succeeds, because the source trims the selector before the
check — contradicting the claim quantified over every selector string
that does not start with the hash. -/
theorem c4_counterexample :
    jsStartsWith " #a" "#" = false ∧
    exceptIsError (embedClinicMap ⟨some " #a", some "juno", ⟨none, none⟩⟩
      domEmpty) = false :=
  ⟨by decide, by decide⟩

/-- Claim C4 amended: the factory fails with InvalidArgument exactly
when parentSelector or clinicType is absent or empty, or when the
trimmed parentSelector does not start with the hash character; in every
other case an instance is returned. -/
theorem c4_amended (params : EmbedParams) (dom : HostDom) :
    exceptIsError (embedClinicMap params dom) =
      ((strFalsy params.parentSelector || strFalsy params.clinicType) ||
        !jsStartsWith (jsTrim (params.parentSelector.getD "")) "#") := by
  unfold embedClinicMap
  by_cases h1 : (strFalsy params.parentSelector ||
      strFalsy params.clinicType) = true
  · rw [if_pos h1]
    simp [exceptIsError, h1]
  · have h1f : (strFalsy params.parentSelector ||
        strFalsy params.clinicType) = false := by simpa using h1
    rw [if_neg h1]
    by_cases h2 : (!jsStartsWith (jsTrim (params.parentSelector.getD ""))
        "#") = true
    · rw [if_pos h2]
      simp [exceptIsError, h1f, h2]
    · have h2f : (!jsStartsWith (jsTrim (params.parentSelector.getD ""))
          "#") = false := by simpa using h2
      rw [if_neg h2]
      simp [exceptIsError, h1f, h2f]

/-- Claim C5: when the details fetch resolves with a non-success HTTP
status or with a content type other than application/json, `init`
completes with nothing caught, clinicDetails keeps its empty default
object, and the details slot of the host DOM is untouched — no
accordion is rendered.  The response record is universally quantified,
its JSON body included, so the body is never parsed: a parse of the
malformed body would have thrown and been recorded as caught. -/
theorem c5_details_failure (ps ct mc sc : String)
    (envT envM : FetchOutcome) (rd : JsResponse) (dom : HostDom)
    (h : rd.ok = false ∨ isContentType rd "json" = false) :
    (init ps ct mc sc ⟨envT, envM, .response rd⟩ (initState dom)
      dom).caught = false ∧
    (init ps ct mc sc ⟨envT, envM, .response rd⟩ (initState dom)
      dom).state.clinicDetails = .obj [] ∧
    (init ps ct mc sc ⟨envT, envM, .response rd⟩ (initState dom)
      dom).dom.detailsSlot = dom.detailsSlot := by
  have hD : fetchData (FetchOutcome.response rd) = none ∨
      ∃ r, fetchData (FetchOutcome.response rd) = some r ∧
        isContentType r "json" = false := by
    rcases h with h | h
    · left
      unfold fetchData
      simp [h]
    · by_cases hok : rd.ok = true
      · right
        refine ⟨rd, ?_, h⟩
        unfold fetchData
        simp [hok]
      · left
        have hokf : rd.ok = false := by simpa using hok
        unfold fetchData
        simp [hokf]
  rw [init_char ps ct mc sc ⟨envT, envM, .response rd⟩ dom hD]
  refine ⟨rfl, ?_, rfl⟩
  rw [(commitMap_rest _ _).2.1, (commitTitle_rest _ _).2.1]
  rfl

/-- Claim C5 witness: the theorem applied to a concrete details
response with HTTP 404. -/
theorem c5_details_failure_witness :
    (detailsResp404.ok = false ∨
      isContentType detailsResp404 "json" = false) ∧
    ((init "#p" "juno" "#000" "#fff"
        ⟨.networkError, .networkError, .response detailsResp404⟩
        (initState domAll) domAll).caught = false ∧
      (init "#p" "juno" "#000" "#fff"
        ⟨.networkError, .networkError, .response detailsResp404⟩
        (initState domAll) domAll).state.clinicDetails = .obj [] ∧
      (init "#p" "juno" "#000" "#fff"
        ⟨.networkError, .networkError, .response detailsResp404⟩
        (initState domAll) domAll).dom.detailsSlot =
        domAll.detailsSlot) :=
  ⟨Or.inl rfl,
    c5_details_failure "#p" "juno" "#000" "#fff" .networkError
      .networkError detailsResp404 domAll (Or.inl rfl)⟩

/-- Claim C6: the fetches issued by `init` are exactly those whose
marker element is present under the parent selector — title, map and
details in source order, the latter two namespaced by the clinic type;
in particular a host DOM carrying only the details marker yields
exactly one fetch, of the clinic-details JSON resource of that clinic
type. -/
theorem c6_fetch_urls (ps ct mc sc : String) (env : FetchEnv)
    (dom : HostDom) :
    (init ps ct mc sc env (initState dom) dom).urls =
      (if dom.titleSlot.isSome then [titleUrl] else []) ++
      (if dom.mapSlot.isSome then [mapSvgUrl ct] else []) ++
      (if dom.detailsSlot.isSome then [clinicDetailsUrl ct] else []) ∧
    (init ps ct mc sc env (initState domDetailsOnly) domDetailsOnly).urls
      = ["../data/" ++ ct ++ "/clinic-details.json"] := by
  constructor
  · rw [init_urls]
    rfl
  · rw [init_urls]
    rfl

/-- Claim C7: with the East-area details JSON — one area, one clinic,
no mapUrl, no address and no stations — and a details marker present,
`init` renders exactly one area group, headed by East followed by the
fixed area suffix of the template, containing exactly one clinic entry
with no iframe and empty strings for the absent fields, and nothing is
caught. -/
theorem c7_east_rendering :
    (init "#p" "juno" "#000" "#fff" envEast (initState domDetailsOnly)
      domDetailsOnly).dom.detailsSlot =
      some (.accordion [⟨"Eastエリア",
        [⟨none, "Clinic A", "9-5", "Sun", "", ""⟩]⟩]) ∧
    (init "#p" "juno" "#000" "#fff" envEast (initState domDetailsOnly)
      domDetailsOnly).caught = false :=
  ⟨rfl, rfl⟩

/-- Claim C9: the accordion DOM is fully built before the details slot
is cleared, so when the builder throws — for example on an area entry
whose clinics field is absent — the details slot keeps its prior
content unchanged. -/
theorem c9_atomic_details_render (st : EmbedState) (dom : HostDom)
    (e : JsError)
    (h : createClinicDetailsAccordion st.clinicDetails = .error e) :
    (createContents st dom).1.detailsSlot = dom.detailsSlot := by
  rcases h1 : renderTitle st dom with ⟨d1, e1⟩
  have hd1 : d1.detailsSlot = dom.detailsSlot := by
    have hh := (renderTitle_fields st dom).2.1
    rw [h1] at hh
    exact hh
  unfold createContents
  simp only [h1]
  cases e1 with
  | some ee => exact hd1
  | none =>
    rcases h2 : renderMap st d1 with ⟨d2, e2⟩
    have hd2 : d2.detailsSlot = d1.detailsSlot := by
      have hh := (renderMap_fields st d1).2.1
      rw [h2] at hh
      exact hh
    simp only [h2]
    cases e2 with
    | some ee => exact hd2.trans hd1
    | none =>
      show (renderDetails st d2).1.detailsSlot = dom.detailsSlot
      unfold renderDetails
      by_cases hg : (st.isVisibleDetailsAccordion &&
          jsGtZero st.clinicDetails.lengthProp) = true
      · rw [if_pos hg, h]
        exact hd2.trans hd1
      · rw [if_neg hg]
        exact hd2.trans hd1

/-- Claim C9 witness: the theorem applied to the clinics-free details
data; the builder throws and the slot keeps its original content. -/
theorem c9_atomic_details_render_witness :
    createClinicDetailsAccordion stNoClinics.clinicDetails =
      .error .thrown ∧
    (createContents stNoClinics domDetailsOnly).1.detailsSlot =
      domDetailsOnly.detailsSlot :=
  ⟨rfl, c9_atomic_details_render stNoClinics domDetailsOnly .thrown rfl⟩

/-- Claim C10: a response carrying no Content-Type header at all fails
`isContentType` for every requested type; a successful fetch returning
such a response for all three resources commits nothing to the state,
changes no slot of the host DOM, and nothing is caught. -/
theorem c10_missing_content_type (t ps ct mc sc : String)
    (r : JsResponse) (dom : HostDom) (h : r.contentType = none) :
    isContentType r t = false ∧
    (init ps ct mc sc ⟨.response r, .response r, .response r⟩
      (initState dom) dom).state.titleSvg = "" ∧
    (init ps ct mc sc ⟨.response r, .response r, .response r⟩
      (initState dom) dom).state.mapSvg = "" ∧
    (init ps ct mc sc ⟨.response r, .response r, .response r⟩
      (initState dom) dom).state.clinicDetails = .obj [] ∧
    (init ps ct mc sc ⟨.response r, .response r, .response r⟩
      (initState dom) dom).dom.titleSlot = dom.titleSlot ∧
    (init ps ct mc sc ⟨.response r, .response r, .response r⟩
      (initState dom) dom).dom.mapSlot = dom.mapSlot ∧
    (init ps ct mc sc ⟨.response r, .response r, .response r⟩
      (initState dom) dom).dom.detailsSlot = dom.detailsSlot ∧
    (init ps ct mc sc ⟨.response r, .response r, .response r⟩
      (initState dom) dom).caught = false := by
  have hct : ∀ ty, isContentType r ty = false := by
    intro ty
    unfold isContentType
    rw [h]
  have hsome : ∀ rr, fetchData (FetchOutcome.response r) = some rr →
      isContentType rr "xml" = false := by
    intro rr hrr
    simp only [fetchData] at hrr
    by_cases hok : r.ok = true
    · rw [if_pos hok] at hrr
      injection hrr with h3
      rw [← h3]
      exact hct "xml"
    · have hokf : r.ok = false := by simpa using hok
      rw [hokf] at hrr
      simp at hrr
  have hD : fetchData (FetchOutcome.response r) = none ∨
      ∃ rr, fetchData (FetchOutcome.response r) = some rr ∧
        isContentType rr "json" = false := by
    by_cases hok : r.ok = true
    · right
      refine ⟨r, ?_, hct "json"⟩
      unfold fetchData
      simp [hok]
    · left
      have hokf : r.ok = false := by simpa using hok
      unfold fetchData
      simp [hokf]
  rw [init_char ps ct mc sc ⟨.response r, .response r, .response r⟩
    dom hD]
  refine ⟨hct t, ?_, ?_, ?_, ?_, ?_, rfl, rfl⟩
  · rw [(commitMap_rest _ _).1,
      commitTitle_titleSvg_of_empty _ _ rfl,
      svgCommitText_flagged_none _ r (hct "xml")]
  · rw [commitMap_mapSvg_of_empty _ _ (commitTitle_rest _ _).1,
      svgCommitText_flagged_none _ r (hct "xml")]
  · rw [(commitMap_rest _ _).2.1, (commitTitle_rest _ _).2.1]
    rfl
  · show expectedSvgSlot (FetchOutcome.response r) dom.titleSlot =
      dom.titleSlot
    exact expectedSvgSlot_of_badct _ _ hsome
  · show expectedSvgSlot (FetchOutcome.response r) dom.mapSlot =
      dom.mapSlot
    exact expectedSvgSlot_of_badct _ _ hsome

/-- Claim C10 witness: the theorem applied to a concrete successful
response without a Content-Type header, against a host DOM with all
three markers. -/
theorem c10_missing_content_type_witness :
    respNoContentType.contentType = none ∧
    (isContentType respNoContentType "json" = false ∧
      (init "#p" "juno" "#000" "#fff"
        ⟨.response respNoContentType, .response respNoContentType,
          .response respNoContentType⟩
        (initState domAll) domAll).state.titleSvg = "" ∧
      (init "#p" "juno" "#000" "#fff"
        ⟨.response respNoContentType, .response respNoContentType,
          .response respNoContentType⟩
        (initState domAll) domAll).state.mapSvg = "" ∧
      (init "#p" "juno" "#000" "#fff"
        ⟨.response respNoContentType, .response respNoContentType,
          .response respNoContentType⟩
        (initState domAll) domAll).state.clinicDetails = .obj [] ∧
      (init "#p" "juno" "#000" "#fff"
        ⟨.response respNoContentType, .response respNoContentType,
          .response respNoContentType⟩
        (initState domAll) domAll).dom.titleSlot = domAll.titleSlot ∧
      (init "#p" "juno" "#000" "#fff"
        ⟨.response respNoContentType, .response respNoContentType,
          .response respNoContentType⟩
        (initState domAll) domAll).dom.mapSlot = domAll.mapSlot ∧
      (init "#p" "juno" "#000" "#fff"
        ⟨.response respNoContentType, .response respNoContentType,
          .response respNoContentType⟩
        (initState domAll) domAll).dom.detailsSlot =
        domAll.detailsSlot ∧
      (init "#p" "juno" "#000" "#fff"
        ⟨.response respNoContentType, .response respNoContentType,
          .response respNoContentType⟩
        (initState domAll) domAll).caught = false) :=
  ⟨rfl, c10_missing_content_type "json" "#p" "juno" "#000" "#fff"
    respNoContentType domAll rfl⟩

end ClinicInfo

namespace Reporter

/-- Claim C8 counterexample: from initial width 100, a resize to width
200 at time 0 followed within 200 ms by a resize back to width 100 —
two width-changing resize events — produces no height report at all
(only the load-time report remains), because at the debounce expiry the
width again equals the recorded one; the claim demands exactly one
report. -/
theorem c8_counterexample :
    (runReporter ⟨100, 50⟩
      [⟨0, ⟨200, 60⟩⟩, ⟨100, ⟨100, 70⟩⟩]).reports = [50] := by
  decide

/-- Claim C8 amended: a single resize leaving the width unchanged never
triggers a report, and two width-changing resizes within the 200 ms
debounce window trigger at most one report, measured after the delay
with the latest width: exactly one when the latest width differs from
the last recorded width, and none when the second resize restores
it. -/
theorem c8_amended (w0 : Viewport) (t1 t2 w1 h1 w2 h2 : Nat)
    (hord : t1 ≤ t2) (hlt : t2 < t1 + debounceDelay)
    (hw1 : w1 ≠ w0.width) (hw2 : w2 ≠ w1) :
    (runReporter w0 [⟨t1, ⟨w0.width, h1⟩⟩]).reports = [w0.height] ∧
    (runReporter w0 [⟨t1, ⟨w1, h1⟩⟩, ⟨t2, ⟨w2, h2⟩⟩]).reports =
      (if w2 = w0.width then [w0.height] else [w0.height, h2]) := by
  constructor
  · simp [runReporter, handleResize, fireTimer, runToQuiescence]
  · have hnle : ¬(t1 + debounceDelay ≤ t2) := by omega
    simp only [runReporter, List.foldl, handleResize, runToQuiescence]
    rw [if_neg hnle]
    by_cases hw : w2 = w0.width
    · simp [fireTimer, hw]
    · simp [fireTimer, hw]

/-- Claim C8 witness: the amended theorem applied to a trace whose
second resize moves to a third, distinct width, yielding exactly one
debounced report with the latest measured height. -/
theorem c8_amended_witness :
    ((0 : Nat) ≤ 100 ∧ 100 < 0 + debounceDelay ∧
      (200 : Nat) ≠ 100 ∧ (300 : Nat) ≠ 200) ∧
    ((runReporter ⟨100, 50⟩ [⟨0, ⟨100, 60⟩⟩]).reports = [50] ∧
      (runReporter ⟨100, 50⟩
        [⟨0, ⟨200, 60⟩⟩, ⟨100, ⟨300, 70⟩⟩]).reports =
        (if 300 = 100 then [50] else [50, 70])) :=
  ⟨⟨by decide, by decide, by decide, by decide⟩,
    c8_amended ⟨100, 50⟩ 0 100 200 60 300 70 (by decide) (by decide)
      (by decide) (by decide)⟩

end Reporter
